import Mathlib

/-!
Verification of the url2ref metadata-resolution and citation-synthesis engine.

The definitions below are a shallow embedding of the Rust crate `url2ref`:
the attribute data model (`attribute.rs`), the citation builders
(`citation.rs`), the source parsers (`schema_org.rs`, `schema_org/author.rs`,
`schema_org/generic.rs`, `zotero.rs`, `doi.rs`, `html_meta.rs`), the priority
resolver (`parser.rs`) and the reference assembler / archive resolver
(`generator.rs`).  External library calls (HTTP, HTML parsing by the
`webpage`/`scraper` crates, `chrono` date parsing, `serde_json` values) are
modelled as explicit data or environment records; Rust panics are modelled by
`Except String`.
-/

/-- Helper for `splitWhitespace`: walks the character list, accumulating the
current token in reverse. -/
def splitWsAux : List Char → List Char → List String
  | [], acc => if acc.isEmpty then [] else [String.mk acc.reverse]
  | c :: cs, acc =>
    if c.isWhitespace then
      (if acc.isEmpty then [] else [String.mk acc.reverse]) ++ splitWsAux cs []
    else splitWsAux cs (c :: acc)

/-- Model of Rust `str::split_whitespace`: splits on runs of whitespace and
yields no empty tokens. -/
def splitWhitespace (s : String) : List String := splitWsAux s.toList []

/-- Zero-pads a natural number to the given width, as Rust `{:0w}` does. -/
def padNat (width : Nat) (n : Nat) : String :=
  let s := toString n
  if s.length < width then String.mk (List.replicate (width - s.length) '0') ++ s else s

/-- Zero-pads an integer to the given total width (sign included), as Rust
`{:0w}` and chrono's padded format specifiers do. -/
def fmtIntPad (width : Nat) (i : Int) : String :=
  if i < 0 then
    let digits := toString i.natAbs
    if digits.length + 1 < width then "-" ++ padNat (width - 1) i.natAbs else "-" ++ digits
  else padNat width i.natAbs

/-- Model of `chrono::NaiveDate`: a calendar date. -/
structure NaiveDate where
  year : Int
  month : Nat
  day : Nat
deriving DecidableEq

/-- Model of `chrono::DateTime<Utc>`: an instant, of which only the calendar
fields are ever formatted by this crate. -/
structure DateTimeUtc where
  year : Int
  month : Nat
  day : Nat
  hour : Nat
  minute : Nat
  second : Nat
deriving DecidableEq

/-- The `Date` precision lattice from `attribute.rs`. -/
inductive Date where
  | dateTime (dt : DateTimeUtc)
  | yearMonthDay (nd : NaiveDate)
  | yearMonth (year : Int) (month : Int)
  | year (y : Int)
deriving DecidableEq

/-- The `Author` enum from `attribute.rs`. -/
inductive Author where
  | person (s : String)
  | organization (s : String)
  | generic (s : String)
deriving DecidableEq

/-- The `Translation` struct from `attribute.rs`. -/
structure Translation where
  text : String
  language : String
deriving DecidableEq

/-- The `Attribute` tagged union from `attribute.rs`. -/
inductive Attribute where
  | title (s : String)
  | translatedTitle (t : Translation)
  | authors (l : List Author)
  | date (d : Date)
  | archiveDate (d : Date)
  | language (s : String)
  | locale (s : String)
  | site (s : String)
  | url (s : String)
  | archiveUrl (s : String)
  | type (s : String)
  | journal (s : String)
  | publisher (s : String)
  | institution (s : String)
  | volume (s : String)
deriving DecidableEq

/-- The `AttributeType` enumeration from `attribute.rs`, in declaration
order (the order `strum::EnumIter` iterates in). -/
inductive AttributeType where
  | title
  | author
  | locale
  | language
  | site
  | date
  | archiveDate
  | url
  | archiveUrl
  | type
  | journal
  | publisher
  | institution
  | volume
deriving DecidableEq

/-- Chrono `%Y-%m-%d` formatting of a `NaiveDate`. -/
def NaiveDate.fmtYmd (d : NaiveDate) : String :=
  fmtIntPad 4 d.year ++ "-" ++ padNat 2 d.month ++ "-" ++ padNat 2 d.day

/-- Chrono `%Y-%m-%d` formatting of a `DateTime<Utc>`. -/
def DateTimeUtc.fmtYmd (dt : DateTimeUtc) : String :=
  fmtIntPad 4 dt.year ++ "-" ++ padNat 2 dt.month ++ "-" ++ padNat 2 dt.day

/-- The `month_name` helper from `citation.rs`. -/
def monthName (month : Int) : String :=
  if month = 1 then "January"
  else if month = 2 then "February"
  else if month = 3 then "March"
  else if month = 4 then "April"
  else if month = 5 then "May"
  else if month = 6 then "June"
  else if month = 7 then "July"
  else if month = 8 then "August"
  else if month = 9 then "September"
  else if month = 10 then "October"
  else if month = 11 then "November"
  else if month = 12 then "December"
  else "Unknown"

/-- The `WikiCitation` builder state from `citation.rs`. -/
structure WikiCitation where
  formatted_string : String
deriving DecidableEq

/-- The inner `stringify_author` closure of `WikiCitation::handle_authors`. -/
def WikiCitation.stringifyAuthor (author : Author) (count : Option Int) : String :=
  let i := (count.map toString).getD ""
  let dflt := fun (a : String) =>
    "| author" ++ i ++ " = " ++ String.intercalate " " (splitWhitespace a)
  match author with
  | .person s =>
    let parts := splitWhitespace s
    if parts.isEmpty then dflt s
    else
      "| last" ++ i ++ " = " ++ parts.getLastD "" ++
        "\n| first" ++ i ++ " = " ++ String.intercalate " " parts.dropLast
  | .organization s => dflt s
  | .generic s =>
    let parts := splitWhitespace s
    if 2 ≤ parts.length then
      "| last" ++ i ++ " = " ++ parts.getLastD "" ++
        "\n| first" ++ i ++ " = " ++ String.intercalate " " parts.dropLast
    else dflt s

/-- The `WikiCitation::handle_authors` method: multiple authors get 1-based
indices, a single author gets none. -/
def WikiCitation.handleAuthors (authors : List Author) : String :=
  String.intercalate " "
    (authors.enum.map (fun p =>
      WikiCitation.stringifyAuthor p.2
        (if 1 < authors.length then some ((p.1 : Int) + 1) else none)))

/-- The `WikiCitation::handle_date` method. -/
def WikiCitation.handleDate (date : Date) : String :=
  match date with
  | .dateTime dt => dt.fmtYmd
  | .yearMonthDay nd => nd.fmtYmd
  | .yearMonth y m => toString y ++ "-" ++ toString m
  | .year y => toString y

/-- The `CitationBuilder::new` implementation for `WikiCitation`. -/
def WikiCitation.new : WikiCitation := { formatted_string := "" }

/-- The `CitationBuilder::add` implementation for `WikiCitation`. -/
def WikiCitation.add (self : WikiCitation) (attr : Attribute) : WikiCitation :=
  let result_option : Option String :=
    match attr with
    | .title val => some ("| title = " ++ val)
    | .translatedTitle tr => some ("| trans-title = " ++ tr.text)
    | .authors vals => some (WikiCitation.handleAuthors vals)
    | .date val => some ("| date = " ++ WikiCitation.handleDate val)
    | .archiveDate val => some ("| archive-date = " ++ WikiCitation.handleDate val)
    | .language val => some ("| language = " ++ val)
    | .site val => some ("| site = " ++ val)
    | .url val => some ("| url = " ++ val)
    | .archiveUrl val => some ("| archive-url = " ++ val)
    | .journal val => some ("| journal = " ++ val)
    | .publisher val => some ("| publisher = " ++ val)
    | _ => none
  match result_option with
  | some parsed_value => { formatted_string := self.formatted_string ++ "\n" ++ parsed_value }
  | none => self

/-- The `CitationBuilder::try_add` implementation for `WikiCitation`. -/
def WikiCitation.tryAdd (self : WikiCitation) (attribute_option : Option Attribute) : WikiCitation :=
  match attribute_option with
  | some attr => self.add attr
  | none => self

/-- The `CitationBuilder::build` implementation for `WikiCitation`. -/
def WikiCitation.build (self : WikiCitation) : String :=
  "\x7b\x7bcite web" ++ self.formatted_string ++ "\n\x7d\x7d"

/-- The `BibTeXCitation` builder state from `citation.rs`. -/
structure BibTeXCitation where
  formatted_string : String
deriving DecidableEq

/-- The inner `stringify_author` closure of `BibTeXCitation::handle_authors`. -/
def BibTeXCitation.stringifyAuthor (author : Author) : String :=
  let dflt := fun (a : String) =>
    "\x7b" ++ String.intercalate " " (splitWhitespace a) ++ "\x7d"
  match author with
  | .person s =>
    let parts := splitWhitespace s
    if parts.isEmpty then dflt s
    else parts.getLastD "" ++ ", " ++ String.intercalate " " parts.dropLast
  | .organization s => dflt s
  | .generic s =>
    let parts := splitWhitespace s
    if 2 ≤ parts.length then
      parts.getLastD "" ++ ", " ++ String.intercalate " " parts.dropLast
    else dflt s

/-- The `BibTeXCitation::handle_authors` method: authors joined by " and ". -/
def BibTeXCitation.handleAuthors (authors : List Author) : String :=
  "author = \"" ++
    String.intercalate " and " (authors.map BibTeXCitation.stringifyAuthor) ++ "\""

/-- The `BibTeXCitation::handle_date_value` method. -/
def BibTeXCitation.handleDateValue (date : Date) : String :=
  match date with
  | .dateTime dt => dt.fmtYmd
  | .yearMonthDay nd => nd.fmtYmd
  | .yearMonth y m => toString y ++ "-" ++ fmtIntPad 2 m
  | .year y => toString y

/-- The `BibTeXCitation::handle_date` method: a year-month date yields
separate `year =` and `month =` fields. -/
def BibTeXCitation.handleDate (date : Date) : String :=
  match date with
  | .dateTime dt => "date = \"" ++ dt.fmtYmd ++ "\""
  | .yearMonthDay nd => "date = \"" ++ nd.fmtYmd ++ "\""
  | .yearMonth y m =>
    "year = \"" ++ toString y ++ "\",\nmonth = \"" ++ toString m ++ "\""
  | .year y => "year = \"" ++ toString y ++ "\""

/-- The `CitationBuilder::new` implementation for `BibTeXCitation`. -/
def BibTeXCitation.new : BibTeXCitation := { formatted_string := "" }

/-- The `CitationBuilder::add` implementation for `BibTeXCitation`. -/
def BibTeXCitation.add (self : BibTeXCitation) (attr : Attribute) : BibTeXCitation :=
  let result_option : Option String :=
    match attr with
    | .title val => some ("title = \"" ++ val ++ "\"")
    | .translatedTitle tr => some ("note = \"Translated title: " ++ tr.text ++ "\"")
    | .authors vals => some (BibTeXCitation.handleAuthors vals)
    | .date val => some (BibTeXCitation.handleDate val)
    | .url val => some ("url = \\url\x7b" ++ val ++ "\x7d")
    | .site val => some ("howpublished = \"" ++ val ++ "\"")
    | .publisher val => some ("publisher = \"" ++ val ++ "\"")
    | .language val => some ("language = \"" ++ val ++ "\"")
    | .journal val => some ("journal = \"" ++ val ++ "\"")
    | .archiveUrl val => some ("archiveurl = \\url\x7b" ++ val ++ "\x7d")
    | .archiveDate val => some ("archivedate = \"" ++ BibTeXCitation.handleDateValue val ++ "\"")
    | _ => none
  match result_option with
  | some parsed_value => { formatted_string := self.formatted_string ++ parsed_value ++ ",\n" }
  | none => self

/-- The `CitationBuilder::try_add` implementation for `BibTeXCitation`. -/
def BibTeXCitation.tryAdd (self : BibTeXCitation) (attribute_option : Option Attribute) :
    BibTeXCitation :=
  match attribute_option with
  | some attr => self.add attr
  | none => self

/-- The `CitationBuilder::build` implementation for `BibTeXCitation`. -/
def BibTeXCitation.build (self : BibTeXCitation) : String :=
  "@misc\x7b url2ref,\n" ++ self.formatted_string ++ "\x7d"

/-- The `HarvardCitation` builder state from `citation.rs`: named slots. -/
structure HarvardCitation where
  authors : Option String
  year : Option String
  title : Option String
  site : Option String
  publisher : Option String
  url : Option String
  access_date : Option String
deriving DecidableEq

/-- The inner `format_single_author` closure of
`HarvardCitation::format_authors`: abbreviates given names to initials. -/
def HarvardCitation.formatSingleAuthor (author : Author) : String :=
  let getInitials := fun (first_names : String) =>
    String.join ((splitWhitespace first_names).map (fun name =>
      String.singleton (name.toList.headD ' ') ++ "."))
  match author with
  | .person s | .generic s =>
    let parts := splitWhitespace s
    match parts with
    | [single_name] => single_name
    | _ =>
      if 2 ≤ parts.length then
        parts.getLastD "" ++ ", " ++
          getInitials (String.intercalate " " parts.dropLast)
      else s
  | .organization s => s

/-- The `HarvardCitation::format_authors` method: "and" for two authors,
"et al." for three or more. -/
def HarvardCitation.formatAuthors (authors : List Author) : String :=
  match authors with
  | [] => ""
  | [a] => HarvardCitation.formatSingleAuthor a
  | [a, b] =>
    HarvardCitation.formatSingleAuthor a ++ " and " ++ HarvardCitation.formatSingleAuthor b
  | a :: _ :: _ :: _ => HarvardCitation.formatSingleAuthor a ++ " et al."

/-- The `HarvardCitation::extract_year` method. -/
def HarvardCitation.extractYear (date : Date) : String :=
  match date with
  | .dateTime dt => fmtIntPad 4 dt.year
  | .yearMonthDay nd => fmtIntPad 4 nd.year
  | .yearMonth y _ => toString y
  | .year y => toString y

/-- The `HarvardCitation::format_access_date` method ("1 January 2024"). -/
def HarvardCitation.formatAccessDate (date : Date) : String :=
  match date with
  | .dateTime dt =>
    toString dt.day ++ " " ++ monthName (Int.ofNat dt.month) ++ " " ++ fmtIntPad 4 dt.year
  | .yearMonthDay nd =>
    toString nd.day ++ " " ++ monthName (Int.ofNat nd.month) ++ " " ++ fmtIntPad 4 nd.year
  | .yearMonth y m => monthName m ++ " " ++ toString y
  | .year y => toString y

/-- The `CitationBuilder::new` implementation for `HarvardCitation`. -/
def HarvardCitation.new : HarvardCitation :=
  { authors := none, year := none, title := none, site := none
    publisher := none, url := none, access_date := none }

/-- The `CitationBuilder::add` implementation for `HarvardCitation`. -/
def HarvardCitation.add (self : HarvardCitation) (attr : Attribute) : HarvardCitation :=
  match attr with
  | .title val => { self with title := some val }
  | .authors vals => { self with authors := some (HarvardCitation.formatAuthors vals) }
  | .date val => { self with year := some (HarvardCitation.extractYear val) }
  | .site val => { self with site := some val }
  | .publisher val => { self with publisher := some val }
  | .url val => { self with url := some val }
  | .archiveDate val => { self with access_date := some (HarvardCitation.formatAccessDate val) }
  | _ => self

/-- The `CitationBuilder::try_add` implementation for `HarvardCitation`. -/
def HarvardCitation.tryAdd (self : HarvardCitation) (attribute_option : Option Attribute) :
    HarvardCitation :=
  match attribute_option with
  | some attr => self.add attr
  | none => self

/-- The `CitationBuilder::build` implementation for `HarvardCitation`. -/
def HarvardCitation.build (self : HarvardCitation) : String :=
  let base :=
    match self.authors, self.year with
    | some authors, some year => authors ++ " (" ++ year ++ ")"
    | some authors, none => authors ++ " (n.d.)"
    | none, some year => "(" ++ year ++ ")"
    | none, none => "(n.d.)"
  let base :=
    match self.title with
    | some title => base ++ " '" ++ title ++ "'"
    | none => base
  let source := self.site.or self.publisher
  let base :=
    match source with
    | some src => base ++ ", " ++ src
    | none => base
  let base := base ++ "."
  let base :=
    match self.url with
    | some url => base ++ " Available at: " ++ url
    | none => base
  match self.access_date with
  | some date => base ++ " (Accessed: " ++ date ++ ")."
  | none => base

/-- Concatenating a list and a final singleton is never the empty list. -/
theorem concat_ne_nil_str (fs : List String) (l : String) : fs ++ [l] ≠ [] := by
  cases fs <;> simp

/-- C9: for every builder (Wiki, BibTeX, Harvard) `try_add` applied to `None`
is the identity on the builder state, so inserting it anywhere in a chain of
adds leaves the final `build` output unchanged. -/
theorem try_add_none_identity :
    (∀ b : WikiCitation, b.tryAdd none = b) ∧
    (∀ b : BibTeXCitation, b.tryAdd none = b) ∧
    (∀ b : HarvardCitation, b.tryAdd none = b) ∧
    (∀ (b : WikiCitation) (rest : List (Option Attribute)),
      (rest.foldl WikiCitation.tryAdd (b.tryAdd none)).build =
        (rest.foldl WikiCitation.tryAdd b).build) ∧
    (∀ (b : BibTeXCitation) (rest : List (Option Attribute)),
      (rest.foldl BibTeXCitation.tryAdd (b.tryAdd none)).build =
        (rest.foldl BibTeXCitation.tryAdd b).build) ∧
    (∀ (b : HarvardCitation) (rest : List (Option Attribute)),
      (rest.foldl HarvardCitation.tryAdd (b.tryAdd none)).build =
        (rest.foldl HarvardCitation.tryAdd b).build) :=
  ⟨fun _ => rfl, fun _ => rfl, fun _ => rfl,
   fun _ _ => rfl, fun _ _ => rfl, fun _ _ => rfl⟩

/-- C4: the BibTeX builder renders each `Person` author whose name splits into
given names plus a family name as "Last, First", joins authors with " and "
(so `Person "Jane Smith"` and `Person "John Doe"` yield
`author = "Smith, Jane and Doe, John"`), and a `YearMonth` date emits
separate `year =` and `month =` fields rather than a `date =` field. -/
theorem bibtex_authors_and_yearmonth
    (a1 a2 l1 l2 : String) (fs1 fs2 : List String)
    (h1 : splitWhitespace a1 = fs1 ++ [l1])
    (h2 : splitWhitespace a2 = fs2 ++ [l2]) :
    BibTeXCitation.handleAuthors [.person a1, .person a2] =
      "author = \"" ++ (l1 ++ ", " ++ String.intercalate " " fs1) ++ " and " ++
        (l2 ++ ", " ++ String.intercalate " " fs2) ++ "\"" ∧
    BibTeXCitation.handleAuthors [.person "Jane Smith", .person "John Doe"] =
      "author = \"Smith, Jane and Doe, John\"" ∧
    (∀ (y m : Int) (b : BibTeXCitation),
      (b.add (.date (.yearMonth y m))).formatted_string =
        b.formatted_string ++
          ("year = \"" ++ toString y ++ "\",\nmonth = \"" ++ toString m ++ "\"") ++ ",\n") := by
  refine ⟨?_, by decide, fun y m b => rfl⟩
  have e1 : BibTeXCitation.stringifyAuthor (.person a1) =
      l1 ++ ", " ++ String.intercalate " " fs1 := by
    have hne : (fs1 ++ [l1]).isEmpty = false := by cases fs1 <;> rfl
    simp only [BibTeXCitation.stringifyAuthor, h1, hne, Bool.false_eq_true, if_false,
      List.getLastD_concat, List.dropLast_concat]
  have e2 : BibTeXCitation.stringifyAuthor (.person a2) =
      l2 ++ ", " ++ String.intercalate " " fs2 := by
    have hne : (fs2 ++ [l2]).isEmpty = false := by cases fs2 <;> rfl
    simp only [BibTeXCitation.stringifyAuthor, h2, hne, Bool.false_eq_true, if_false,
      List.getLastD_concat, List.dropLast_concat]
  have pair : ∀ x y : String, String.intercalate " and " [x, y] = x ++ " and " ++ y :=
    fun _ _ => rfl
  simp only [BibTeXCitation.handleAuthors, List.map_cons, List.map_nil, e1, e2, pair,
    String.append_assoc]

/-- C5: the Wiki builder renders a single author without an index digit
(`| last = `, `| first = `), while a list of two or more authors numbers each
author's parameters 1-based in list order (`| last1 = `, `| last2 = `, ...). -/
theorem wiki_author_indexing
    (a l : String) (fs : List String)
    (h : splitWhitespace a = fs ++ [l])
    (authors : List Author) (hlen : 2 ≤ authors.length) :
    WikiCitation.handleAuthors [.person a] =
      "| last = " ++ l ++ "\n| first = " ++ String.intercalate " " fs ∧
    WikiCitation.handleAuthors authors =
      String.intercalate " " (authors.enum.map (fun p =>
        WikiCitation.stringifyAuthor p.2 (some ((p.1 : Int) + 1)))) ∧
    WikiCitation.handleAuthors [.person "Jane Smith", .person "John Doe"] =
      "| last1 = Smith\n| first1 = Jane | last2 = Doe\n| first2 = John" := by
  refine ⟨?_, ?_, by decide⟩
  · have e : WikiCitation.stringifyAuthor (.person a) none =
        "| last = " ++ l ++ "\n| first = " ++ String.intercalate " " fs := by
      have hne : (fs ++ [l]).isEmpty = false := by cases fs <;> rfl
      simp only [WikiCitation.stringifyAuthor, h, hne, Bool.false_eq_true, if_false,
        List.getLastD_concat, List.dropLast_concat]
      apply String.ext
      simp [String.data_append, List.append_assoc]
    calc WikiCitation.handleAuthors [.person a]
        = WikiCitation.stringifyAuthor (.person a) none := rfl
      _ = _ := e
  · have hc : (1 : Nat) < authors.length := hlen
    simp only [WikiCitation.handleAuthors, hc, if_true]

/-- Witness for `bibtex_authors_and_yearmonth` at `Person "Jane Smith"`,
`Person "John Doe"`. -/
theorem bibtex_authors_and_yearmonth_witness :
    splitWhitespace "Jane Smith" = ["Jane"] ++ ["Smith"] ∧
    BibTeXCitation.handleAuthors [.person "Jane Smith", .person "John Doe"] =
      "author = \"" ++ ("Smith" ++ ", " ++ String.intercalate " " ["Jane"]) ++ " and " ++
        ("Doe" ++ ", " ++ String.intercalate " " ["John"]) ++ "\"" :=
  ⟨by decide,
   (bibtex_authors_and_yearmonth "Jane Smith" "John Doe" "Smith" "Doe" ["Jane"] ["John"]
      (by decide) (by decide)).1⟩

/-- Witness for `wiki_author_indexing` at `Person "Jane Smith"` alone and a
concrete two-author list. -/
theorem wiki_author_indexing_witness :
    splitWhitespace "Jane Smith" = ["Jane"] ++ ["Smith"] ∧
    2 ≤ ([Author.person "Ann Lee", Author.person "Bo Ek"] : List Author).length ∧
    WikiCitation.handleAuthors [.person "Jane Smith"] =
      "| last = " ++ "Smith" ++ "\n| first = " ++ String.intercalate " " ["Jane"] :=
  ⟨by decide, by decide,
   (wiki_author_indexing "Jane Smith" "Smith" ["Jane"] (by decide)
      [.person "Ann Lee", .person "Bo Ek"] (by decide)).1⟩

/-- C8 counterexample: adding `Title "A\n  B"` does not collapse the internal
whitespace run — the Wiki builder emits the title verbatim, not as "A B", and
likewise BibTeX and Harvard. -/
theorem title_whitespace_counterexample :
    (WikiCitation.new.add (.title "A\n  B")).build =
      "\x7b\x7bcite web\n| title = A\n  B\n\x7d\x7d" ∧
    (WikiCitation.new.add (.title "A\n  B")).build ≠
      "\x7b\x7bcite web\n| title = A B\n\x7d\x7d" ∧
    (BibTeXCitation.new.add (.title "A\n  B")).build =
      "@misc\x7b url2ref,\ntitle = \"A\n  B\",\n\x7d" ∧
    (HarvardCitation.new.add (.title "A\n  B")).title = some "A\n  B" :=
  ⟨by decide, by decide, by decide, rfl⟩

/-- C8 amended: whitespace collapsing happens only inside author-name
rendering (Wiki and BibTeX author handling split and rejoin names on
whitespace); free-text fields such as title, site and publisher are emitted
verbatim, internal whitespace preserved, by all three builders. -/
theorem title_whitespace_verbatim_amended :
    (∀ (b : WikiCitation) (s : String),
      (b.add (.title s)).formatted_string = b.formatted_string ++ "\n" ++ ("| title = " ++ s)) ∧
    (∀ (b : WikiCitation) (s : String),
      (b.add (.site s)).formatted_string = b.formatted_string ++ "\n" ++ ("| site = " ++ s)) ∧
    (∀ (b : WikiCitation) (s : String),
      (b.add (.publisher s)).formatted_string =
        b.formatted_string ++ "\n" ++ ("| publisher = " ++ s)) ∧
    (∀ (b : BibTeXCitation) (s : String),
      (b.add (.title s)).formatted_string =
        b.formatted_string ++ ("title = \"" ++ s ++ "\"") ++ ",\n") ∧
    (∀ (b : BibTeXCitation) (s : String),
      (b.add (.site s)).formatted_string =
        b.formatted_string ++ ("howpublished = \"" ++ s ++ "\"") ++ ",\n") ∧
    (∀ (b : BibTeXCitation) (s : String),
      (b.add (.publisher s)).formatted_string =
        b.formatted_string ++ ("publisher = \"" ++ s ++ "\"") ++ ",\n") ∧
    (∀ (b : HarvardCitation) (s : String), (b.add (.title s)).title = some s) ∧
    (∀ (b : HarvardCitation) (s : String), (b.add (.site s)).site = some s) ∧
    (∀ (b : HarvardCitation) (s : String), (b.add (.publisher s)).publisher = some s) ∧
    (∀ s : String, WikiCitation.stringifyAuthor (.organization s) none =
      "| author = " ++ String.intercalate " " (splitWhitespace s)) ∧
    (∀ s : String, BibTeXCitation.stringifyAuthor (.organization s) =
      "\x7b" ++ String.intercalate " " (splitWhitespace s) ++ "\x7d") :=
  ⟨fun _ _ => rfl, fun _ _ => rfl, fun _ _ => rfl, fun _ _ => rfl, fun _ _ => rfl,
   fun _ _ => rfl, fun _ _ => rfl, fun _ _ => rfl, fun _ _ => rfl, fun _ => rfl,
   fun _ => rfl⟩

/-- Model of Rust `str::to_lowercase` restricted to the simple one-to-one
character mapping (sufficient for the ASCII sentinel titles compared here). -/
def strToLower (s : String) : String := String.mk (s.toList.map Char.toLower)

/-- Helper: decides whether the first character list is a prefix of the
second. -/
def listIsPref : List Char → List Char → Bool
  | [], _ => true
  | _ :: _, [] => false
  | a :: as, b :: bs => a == b && listIsPref as bs

/-- Model of Rust `str::starts_with` for string patterns. -/
def strStarts (s pat : String) : Bool := listIsPref pat.toList s.toList

/-- Model of Rust `str::trim`: strips leading and trailing whitespace. -/
def strTrim (s : String) : String :=
  String.mk (((s.toList.dropWhile Char.isWhitespace).reverse.dropWhile
    Char.isWhitespace).reverse)

/-- Helper: decides whether `pat` occurs as a contiguous sublist of `l`. -/
def listContainsSub (l pat : List Char) : Bool :=
  match l with
  | [] => listIsPref pat []
  | _ :: rest => listIsPref pat l || listContainsSub rest pat

/-- Model of Rust `str::contains` for string patterns. -/
def strContains (s pat : String) : Bool := listContainsSub s.toList pat.toList

/-- Model of Rust `str::trim_start_matches`: removes every repetition of the
given prefix (fuel-based recursion over the character list). -/
def stripLeadingAux : Nat → List Char → List Char → List Char
  | 0, _, cs => cs
  | fuel + 1, pat, cs =>
    if pat.isEmpty then cs
    else if listIsPref pat cs then stripLeadingAux fuel pat (cs.drop pat.length)
    else cs

/-- Model of Rust `str::trim_start_matches` on strings. -/
def stripLeading (pat : String) (s : String) : String :=
  String.mk (stripLeadingAux (s.toList.length + 1) pat.toList s.toList)

/-- Parses a non-empty all-digit character list into a natural number. -/
def digitsToNat : List Char → Option Nat
  | [] => none
  | cs =>
    if cs.all Char.isDigit then
      some (cs.foldl (fun acc c => acc * 10 + (c.toNat - 48)) 0)
    else none

/-- Model of Rust `str::parse::<i32>`: an optional sign followed by digits. -/
def strToInt (s : String) : Option Int :=
  match s.toList with
  | '-' :: rest => (digitsToNat rest).map (fun n => -(n : Int))
  | '+' :: rest => (digitsToNat rest).map (fun n => (n : Int))
  | cs => (digitsToNat cs).map (fun n => (n : Int))

/-- Whether the given year is a leap year (proleptic Gregorian, as chrono). -/
def isLeapYear (y : Int) : Bool :=
  (y % 4 == 0 && y % 100 != 0) || y % 400 == 0

/-- Days in the given month of the given year. -/
def daysInMonth (y : Int) (m : Nat) : Nat :=
  if m = 2 then (if isLeapYear y then 29 else 28)
  else if m = 4 ∨ m = 6 ∨ m = 9 ∨ m = 11 then 30
  else 31

/-- Model of `chrono::NaiveDate::from_ymd_opt`: `some` only for a valid
calendar date. -/
def naiveDateFromYmdOpt (y : Int) (m d : Nat) : Option NaiveDate :=
  if 1 ≤ m ∧ m ≤ 12 ∧ 1 ≤ d ∧ d ≤ daysInMonth y m then some ⟨y, m, d⟩ else none

/-- Model of chrono parsing with format `%Y-%m-%d`: splits on dashes and
validates the calendar date. -/
def chronoParseYmd (s : String) : Option NaiveDate :=
  match (s.toList.splitOn '-').map String.mk with
  | [ys, ms, ds] => do
    let y ← strToInt ys
    let m ← digitsToNat ms.toList
    let d ← digitsToNat ds.toList
    naiveDateFromYmdOpt y m d
  | _ => none

/-- Model of `chrono::DateTime::parse_from_rfc3339` converted to UTC,
covering the plain `YYYY-MM-DDTHH:MM:SS` shape with a `Z` / `+00:00` /
absent offset; other offsets and fractional seconds are not modelled (they
are never load-bearing for the claims). -/
def parseRfc3339 (s : String) : Option DateTimeUtc :=
  match s.toList.splitOn 'T' with
  | [datePart, timePart] => do
    let nd ← chronoParseYmd (String.mk datePart)
    let core := timePart.take 8
    let rest := timePart.drop 8
    if rest = [] ∨ rest = ['Z'] ∨ rest = ['+', '0', '0', ':', '0', '0'] then
      match (core.splitOn ':').map String.mk with
      | [hs, ms, ss] => do
        let hh ← digitsToNat hs.toList
        let mm ← digitsToNat ms.toList
        let sec ← digitsToNat ss.toList
        if hh < 24 ∧ mm < 60 ∧ sec < 61 then
          some ⟨nd.year, nd.month, nd.day, hh, mm, sec⟩
        else none
      | _ => none
    else none
  | _ => none

/-- The `parse_date` helper from `parser.rs`: RFC 3339 parsing into a
full-precision `Date::DateTime`. -/
def parse_date (date_str : String) : Option Date :=
  (parseRfc3339 date_str).map Date.dateTime

/-- Model of the `serde_json::Value` tree. -/
inductive Json where
  | null
  | bool (b : Bool)
  | num (n : Int)
  | str (s : String)
  | arr (xs : List Json)
  | obj (fields : List (String × Json))

/-- Model of `serde_json`'s `Value` string indexing: objects yield the entry
or `Null`, every other value yields `Null`. -/
def jsonIndex (v : Json) (key : String) : Json :=
  match v with
  | .obj fields => ((fields.find? (fun p => p.1 = key)).map (fun p => p.2)).getD .null
  | _ => .null

/-- Model of `serde_json::Map` string indexing, which panics ("no entry
found for key") when the key is absent. -/
def mapIndex (fields : List (String × Json)) (key : String) : Except String Json :=
  match fields.find? (fun p => p.1 = key) with
  | some p => .ok p.2
  | none => .error "no entry found for key"

/-- Model of the repo's `parse_zotero_date` (`zotero.rs`): tries ISO
`YYYY-MM-DD`, then `YYYY-MM` (by appending "-01"), then RFC 3339, then a bare
year in 1000..=2100.  The additional natural-language formats the Rust code
hands to chrono (e.g. "January 15, 2024") are not modelled and yield `none`;
they are never load-bearing for the claims. -/
def parseZoteroDate (date_str : String) : Option Date :=
  let date_str := strTrim date_str
  match chronoParseYmd date_str with
  | some d => some (.yearMonthDay d)
  | none =>
    match chronoParseYmd (date_str ++ "-01") with
    | some d => some (.yearMonth d.year (Int.ofNat d.month))
    | none =>
      match parseRfc3339 date_str with
      | some dt => some (.dateTime dt)
      | none =>
        match strToInt date_str with
        | some y => if 1000 ≤ y ∧ y ≤ 2100 then some (.year y) else none
        | none => none

/-- The `ZoteroCreator` struct from `zotero.rs`. -/
structure ZoteroCreator where
  creator_type : Option String
  first_name : Option String
  last_name : Option String
  name : Option String
deriving DecidableEq

/-- The `ZoteroCreator::to_author` method. -/
def ZoteroCreator.toAuthor (c : ZoteroCreator) : Option Author :=
  match c.name with
  | some name => some (.organization name)
  | none =>
    match c.first_name, c.last_name with
    | some first, some last => some (.person (strTrim first ++ " " ++ strTrim last))
    | none, some last => some (.person last)
    | some first, none => some (.person first)
    | none, none => none

/-- The `ZoteroCreator::is_author` method. -/
def ZoteroCreator.isAuthor (c : ZoteroCreator) : Bool :=
  match c.creator_type with
  | some ct => ct == "author" || ct == "contributor" || ct == "artist"
  | none => true

/-- The `ZoteroResult` struct from `zotero.rs` (the deserialized Citoid
response). -/
structure ZoteroResult where
  item_type : Option String
  title : Option String
  creators : Option (List ZoteroCreator)
  date : Option String
  publication_title : Option String
  book_title : Option String
  website_title : Option String
  doi : Option String
  url : Option String
  language : Option String
  publisher : Option String
  place : Option String
  volume : Option String
  issue : Option String
  pages : Option String
  isbn : Option String
  issn : Option String
  abstract_note : Option String
  extra : Option String
  university : Option String
  thesis_type : Option String
deriving DecidableEq

/-- The `ZoteroResult::get_authors` method: authors only, converted. -/
def ZoteroResult.getAuthors (r : ZoteroResult) : List Author :=
  (r.creators.map (fun creators =>
    (creators.filter ZoteroCreator.isAuthor).filterMap ZoteroCreator.toAuthor)).getD []

/-- The `ZoteroResult::get_site_name` method. -/
def ZoteroResult.getSiteName (r : ZoteroResult) : Option String :=
  (r.publication_title.or r.website_title).or r.book_title

/-- The `ZoteroResult::get_date` method. -/
def ZoteroResult.getDate (r : ZoteroResult) : Option Date :=
  r.date.bind parseZoteroDate

/-- The `ZoteroResult::is_valid` method (`zotero.rs` lines 152-168): rejects
a missing title, and titles that (lowercased) start with "not found" or equal
"404", "error", "access denied", or are empty. -/
def ZoteroResult.isValid (r : ZoteroResult) : Bool :=
  match r.title with
  | some title =>
    let title_lower := strToLower title
    if strStarts title_lower "not found" || title_lower == "404" ||
        title_lower == "error" || title_lower == "access denied" || title == "" then
      false
    else true
  | none => false

/-- The `Zotero::parse_from_result` method from `zotero.rs`. -/
def zoteroParseFromResult (result : ZoteroResult) (attribute_type : AttributeType) :
    Option Attribute :=
  match attribute_type with
  | .title => result.title.map .title
  | .author =>
    let authors := result.getAuthors
    if authors.isEmpty then none else some (.authors authors)
  | .date => result.getDate.map .date
  | .language => result.language.map .language
  | .site => result.getSiteName.map .site
  | .url => result.url.map .url
  | .journal => result.publication_title.map .journal
  | .publisher => (result.publisher.or result.university).map .publisher
  | .volume => result.volume.map .volume
  | _ => none

/-- The `ZOTERO_BLACKLIST` constant from `zotero.rs`. -/
def zoteroBlacklist : List String :=
  ["facebook.com", "twitter.com", "x.com", "instagram.com", "tiktok.com",
   "archive.org/web", "youtube.com", "youtu.be", "linkedin.com", "reddit.com"]

/-- The `should_skip_zotero` function from `zotero.rs`. -/
def shouldSkipZotero (url : String) : Bool :=
  let url_lower := strToLower url
  zoteroBlacklist.any (fun blocked => strContains url_lower blocked)

/-- The Zotero-result selection performed by `ParseInfo::from_url`
(`parser.rs` lines 49-69): fetch only when the Zotero parser is requested and
the URL is not blacklisted, and keep the fetched result only when it
validates. The external fetch outcome is an explicit argument. -/
def zoteroResultDecision (use_zotero : Bool) (url : String)
    (fetch : Except Unit ZoteroResult) : Option ZoteroResult :=
  if use_zotero && !shouldSkipZotero url then
    match fetch with
    | .ok result => if result.isValid then some result else none
    | .error _ => none
  else none

/-- Model of `biblatex::Chunk`. -/
inductive Chunk where
  | normal (s : String)
  | verbatim (s : String)
  | math (s : String)
deriving DecidableEq

/-- Model of `biblatex::Person` (the two fields `doi.rs` reads). -/
structure BibPerson where
  given_name : String
  name : String
deriving DecidableEq

/-- Model of `biblatex::Datetime`. -/
structure BibDatetime where
  year : Int
  month : Option Nat
  day : Option Nat
deriving DecidableEq

/-- Model of `biblatex::DateValue`: the `At` variant carries a datetime;
other variants (ranges and the like) are collapsed, since `doi.rs` maps them
all to `None`. -/
inductive BibDateValue where
  | at (d : BibDatetime)
  | other
deriving DecidableEq

/-- Model of `biblatex::Date` with its `approximate`/`uncertain` flags. -/
structure BibDate where
  approximate : Bool
  uncertain : Bool
  value : BibDateValue
deriving DecidableEq

/-- Model of `biblatex::PermissiveType<Date>`. -/
inductive PermissiveDate where
  | typed (d : BibDate)
  | chunks (cs : List Chunk)
deriving DecidableEq

/-- Model of `biblatex::PermissiveType<i64>` as used for volumes. -/
inductive PermissiveVolume where
  | typed (v : Int)
  | chunks (cs : List Chunk)
deriving DecidableEq

/-- Model of a `biblatex::Entry`: each field holds the `.ok()` of the
corresponding typed accessor that `doi.rs` invokes. -/
structure BibEntry where
  title : Option (List Chunk)
  author : Option (List BibPerson)
  url : Option String
  date : Option PermissiveDate
  type_ : Option String
  journal : Option (List Chunk)
  volume : Option PermissiveVolume
  language : Option String
  publisher : Option (List (List Chunk))
deriving DecidableEq

/-- Model of `biblatex::Bibliography`: the parsed list of entries. -/
structure Bibliography where
  entries : List BibEntry
deriving DecidableEq

/-- The `author_to_attribute` function from `doi.rs`. -/
def authorToAttribute (entry : BibEntry) : Option Attribute :=
  entry.author.map (fun persons =>
    .authors (persons.map (fun p => .person (p.given_name ++ " " ++ p.name))))

/-- The `try_create_internal_date` function from `doi.rs`. -/
def tryCreateInternalDate (datetime : BibDatetime) : Option Date :=
  match datetime.month, datetime.day with
  | some month, some day =>
    (naiveDateFromYmdOpt datetime.year month day).map .yearMonthDay
  | some month, none => some (.yearMonth datetime.year (Int.ofNat month))
  | none, none => some (.year datetime.year)
  | none, some _ => none

/-- The `date_to_attribute` function from `doi.rs` (lines 121-138): a typed
date flagged approximate or uncertain yields `None`. -/
def dateToAttribute (pt : PermissiveDate) : Option Attribute :=
  match pt with
  | .typed date_type =>
    if date_type.approximate || date_type.uncertain then none
    else
      match date_type.value with
      | .at datetime => (tryCreateInternalDate datetime).map .date
      | .other => none
  | .chunks _ => none

/-- The `string_from_chunk` function from `doi.rs`. -/
def stringFromChunk : Chunk → Option String
  | .normal string => some string
  | .verbatim string => some string
  | .math _ => none

/-- The `permissive_to_string` function from `doi.rs`, instantiated at
volumes (the typed value's `Debug` output is its decimal representation). -/
def permissiveVolumeToString : PermissiveVolume → Option String
  | .typed value => some (toString value)
  | .chunks chunks => chunks.head?.bind stringFromChunk

/-- The `attribute_type_to_attribute` function from `doi.rs`. -/
def doiAttributeTypeToAttribute (entry : BibEntry) (attribute_type : AttributeType) :
    Option Attribute :=
  match attribute_type with
  | .title => do
    let chunks ← entry.title
    let chunk ← chunks.head?
    let value ← stringFromChunk chunk
    some (.title value)
  | .author => authorToAttribute entry
  | .url => entry.url.map .url
  | .date => entry.date.bind dateToAttribute
  | .type => entry.type_.map .type
  | .journal => do
    let chunks ← entry.journal
    let chunk ← chunks.head?
    let value ← stringFromChunk chunk
    some (.journal value)
  | .volume => entry.volume.bind (fun pt => (permissiveVolumeToString pt).map .volume)
  | .language => entry.language.map .language
  | .publisher => do
    let vec_of_chunks ← entry.publisher
    let chunks ← vec_of_chunks.head?
    let chunk ← chunks.head?
    let value ← stringFromChunk chunk
    some (.publisher value)
  | .institution => do
    let chunks ← entry.journal
    let chunk ← chunks.head?
    let value ← stringFromChunk chunk
    some (.institution value)
  | _ => none

/-- Model of a `<meta>` element as queried by `html_meta.rs` via the
`scraper` library: its `name`, `property` and `content` attributes. -/
structure MetaTag where
  name : Option String
  property : Option String
  content : Option String
deriving DecidableEq

/-- Model of a `<time>` element as queried by `html_meta.rs`: its `itemprop`
and `datetime` attributes. -/
structure TimeElem where
  itemprop : Option String
  datetime : Option String
deriving DecidableEq

/-- Model of the raw HTML text at the granularity the `scraper` library
queries it in `html_meta.rs`: the document's meta tags and time elements in
document order, and, for each CSS selector string, the text content of the
matching elements in document order. -/
structure ScrapedDoc where
  metas : List MetaTag
  times : List TimeElem
  selector_texts : List (String × List String)
deriving DecidableEq

/-- Model of the parsed `webpage::HTML` view: the Open Graph property map
and the list of JSON-LD Schema.org objects. -/
structure Html where
  opengraph : List (String × String)
  schema_org : List Json

/-- The `MetadataType` enumeration from `generator.rs`. -/
inductive MetadataType where
  | openGraph
  | schemaOrg
  | htmlMeta
  | doi
  | zotero
  | ai
deriving DecidableEq

/-- The `ParseInfo` struct from `parser.rs`: the per-request bundle shared by
all source parsers.  `raw_html` is the raw page text, abstracted to the
scraper-level queries `html_meta.rs` performs on it. -/
structure ParseInfo where
  url : Option String
  raw_html : ScrapedDoc
  html : Option Html
  bibliography : Option Bibliography
  zotero_result : Option ZoteroResult

/-- The `Doi::parse_attribute` implementation from `doi.rs` (lines 222-235):
asserts the bibliography holds exactly one entry (a violated `assert!` is a
panic, modelled as `.error`). -/
def doiParseAttribute (parse_info : ParseInfo) (attribute_type : AttributeType) :
    Except String (Option Attribute) :=
  match parse_info.bibliography with
  | none => .ok none
  | some bib =>
    if bib.entries.length = 1 then
      .ok (match bib.entries.head? with
           | some root_entry => doiAttributeTypeToAttribute root_entry attribute_type
           | none => none)
    else .error "Parsed BibTeX contained more than one entry, was input ok?"

/-- The Schema.org key table (`keys` in `schema_org.rs`). -/
def schemaKeys : AttributeType → List String
  | .title => ["headline", "alternativeHeadline"]
  | .author => ["author"]
  | .language => ["inLanguage"]
  | .site => ["publisher", "sourceOrganization"]
  | .url => ["mainEntityOfPage", "url"]
  | .date => ["datePublished", "dateModified"]
  | .type => ["@type"]
  | _ => []

/-- The `try_find_generic_attribute` function from `schema_org/generic.rs`. -/
def tryFindGenericAttribute (schema_value : Json) : List String → Option String
  | [] => none
  | key :: rest =>
    match jsonIndex schema_value key with
    | .str string => some string
    | _ => tryFindGenericAttribute schema_value rest

/-- The `attribute_type_to_attribute` function from `schema_org/generic.rs`;
the `panic!` arms for Author and Site are modelled as `.error`. -/
def genericAttributeTypeToAttribute (attribute_type : AttributeType)
    (attribute_value : String) : Except String (Option Attribute) :=
  match attribute_type with
  | .title => .ok (some (.title attribute_value))
  | .author => .error "Author should have been handled by specialized method"
  | .date => .ok ((parse_date attribute_value).map .date)
  | .locale => .ok (some (.locale attribute_value))
  | .language => .ok (some (.language attribute_value))
  | .site => .error "Site should have been handled by specialized method"
  | .url => .ok (some (.url attribute_value))
  | _ => .ok none

/-- The `create_generic_attribute` function from `schema_org/generic.rs`. -/
def createGenericAttribute (schema_value : Json) (external_keys : List String)
    (attribute_type : AttributeType) : Except String (Option Attribute) :=
  match tryFindGenericAttribute schema_value external_keys with
  | some attribute_value => genericAttributeTypeToAttribute attribute_type attribute_value
  | none => .ok none

/-- The `match_author_type` function from `schema_org/author.rs`. -/
def matchAuthorType (author_type : String) (name : String) : Option Author :=
  if author_type = "Person" then some (.person name)
  else if author_type = "Organization" then some (.organization name)
  else none

/-- The `match_tuple` function from `schema_org/author.rs`. -/
def matchTuple (object_type : Json) (name_value : Json) : Option Author :=
  match object_type, name_value with
  | .str author_type, .str name => matchAuthorType author_type name
  | _, _ => none

/-- The loop of `try_find_author_array_of_persons_stategy` from
`schema_org/author.rs`: any non-object array entry reaches `todo!()`, i.e. a
panic ("not yet implemented"); object entries are indexed via the panicking
`serde_json::Map` index. -/
def tryFindAuthorArrayAux : List Json → List Author → Except String (Option (List Author))
  | [], ret => .ok (if ret.isEmpty then none else some ret)
  | value :: rest, ret =>
    match value with
    | .obj map => do
      let object_type ← mapIndex map "@type"
      let name_value ← mapIndex map "name"
      match matchTuple object_type name_value with
      | some author => tryFindAuthorArrayAux rest (ret ++ [author])
      | none => tryFindAuthorArrayAux rest ret
    | _ => .error "not yet implemented"

/-- The `try_find_author_array_of_persons_stategy` function from
`schema_org/author.rs`. -/
def tryFindAuthorArrayOfPersons (value_list : List Json) :
    Except String (Option (List Author)) :=
  tryFindAuthorArrayAux value_list []

/-- The `try_find_author_attribute` function from `schema_org/author.rs`. -/
def tryFindAuthorAttribute (schema_value : Json) :
    List String → Except String (Option (List Author))
  | [] => .ok none
  | key :: rest => do
    let found ←
      match jsonIndex schema_value key with
      | .arr value_list => tryFindAuthorArrayOfPersons value_list
      | .obj _ => Except.ok none
      | _ => Except.ok none
    if found.isSome then .ok found else tryFindAuthorAttribute schema_value rest

/-- The `create_author_attribute` function from `schema_org/author.rs`. -/
def createAuthorAttribute (schema_value : Json) (external_keys : List String) :
    Except String (Option Attribute) := do
  let attribute_option ← tryFindAuthorAttribute schema_value external_keys
  .ok (attribute_option.map Attribute.authors)

/-- The `try_find_site_attribute` function from `schema_org/site.rs` (present
in the repository's historical snapshot; `schema_org.rs` declares and calls
it): a nested object's `name` field, read via the panicking map index. -/
def tryFindSiteAttribute (schema_value : Json) :
    List String → Except String (Option String)
  | [] => .ok none
  | key :: rest => do
    let found ←
      match jsonIndex schema_value key with
      | .obj value_map => do
        let name_value ← mapIndex value_map "name"
        match name_value with
        | .str name => Except.ok (some name)
        | _ => Except.ok none
      | _ => Except.ok (none : Option String)
    if found.isSome then .ok found else tryFindSiteAttribute schema_value rest

/-- The `create_site_attribute` function from `schema_org/site.rs`. -/
def createSiteAttribute (schema_value : Json) (external_keys : List String) :
    Except String (Option Attribute) := do
  let attribute_option ← tryFindSiteAttribute schema_value external_keys
  .ok (attribute_option.map Attribute.site)

/-- The `SchemaOrg::parse_attribute` implementation from `schema_org.rs`:
first JSON-LD object only; Author and Site use the specialized extraction. -/
def schemaOrgParseAttribute (parse_info : ParseInfo) (attribute_type : AttributeType) :
    Except String (Option Attribute) :=
  match parse_info.html with
  | none => .ok none
  | some html =>
    match html.schema_org.head? with
    | none => .ok none
    | some schema_json =>
      match attribute_type with
      | .author => createAuthorAttribute schema_json (schemaKeys .author)
      | .site => createSiteAttribute schema_json (schemaKeys .site)
      | _ => createGenericAttribute schema_json (schemaKeys attribute_type) attribute_type

/-- The HTML-meta key table (`keys` in `html_meta.rs`). -/
def htmlMetaKeys : AttributeType → List String
  | .author => ["author", "article:author", "byl"]
  | .publisher => ["publisher", "article:publisher"]
  | .date => ["date", "article:published_time", "pubdate", "publishdate", "DC.date.issued"]
  | .site => ["application-name", "apple-mobile-web-app-title"]
  | .language => ["language", "DC.language"]
  | _ => []

/-- The `HtmlMeta::try_find_meta_content` method: for each key, the first
`meta[name=key]` element with a non-blank `content`, then the first
`meta[property=key]` element. -/
def tryFindMetaContent (doc : ScrapedDoc) : List String → Option String
  | [] => none
  | key :: rest =>
    let name_hit :=
      match (doc.metas.find? (fun m => m.name = some key)).bind (fun m => m.content) with
      | some content => if strTrim content ≠ "" then some content else none
      | none => none
    match name_hit with
    | some content => some content
    | none =>
      let prop_hit :=
        match (doc.metas.find? (fun m => m.property = some key)).bind (fun m => m.content) with
        | some content => if strTrim content ≠ "" then some content else none
        | none => none
      match prop_hit with
      | some content => some content
      | none => tryFindMetaContent doc rest

/-- Selector loop of `HtmlMeta::try_find_microdata_date`, one predicate per
CSS selector in the Rust selector list. -/
def tryFindMicrodataDateAux (doc : ScrapedDoc) :
    List (TimeElem → Bool) → Option String
  | [] => none
  | sel :: rest =>
    match doc.times.find? sel with
    | some element =>
      match element.datetime with
      | some datetime =>
        if strTrim datetime ≠ "" then some datetime else tryFindMicrodataDateAux doc rest
      | none => tryFindMicrodataDateAux doc rest
    | none => tryFindMicrodataDateAux doc rest

/-- The `HtmlMeta::try_find_microdata_date` method: `time` elements by
`itemprop`, then any `time[datetime]`. -/
def tryFindMicrodataDate (doc : ScrapedDoc) : Option String :=
  tryFindMicrodataDateAux doc
    [fun t => t.itemprop = some "datePublished",
     fun t => t.itemprop = some "published",
     fun t => t.itemprop = some "dateCreated",
     fun t => t.datetime.isSome]

/-- The CSS selector list of `HtmlMeta::try_find_author`. -/
def authorSelectors : List String :=
  ["[itemprop=\"author\"] [itemprop=\"name\"]",
   "[itemprop=\"author\"]",
   "[rel=\"author\"]",
   ".author",
   ".byline",
   "[class*=\"author-name\"]",
   "[class*=\"byline\"]"]

/-- The per-element filter of `HtmlMeta::try_find_author`: trims, bounds the
length, strips "Af "/"By "/"af "/"by " leads, and wraps in `Generic`. -/
def cleanAuthorText (text : String) : Option Author :=
  let text := strTrim text
  if text ≠ "" ∧ text.utf8ByteSize < 200 then
    let cleaned := strTrim (stripLeading "by " (stripLeading "af "
      (stripLeading "By " (stripLeading "Af " text))))
    if cleaned ≠ "" then some (.generic cleaned) else none
  else none

/-- Selector loop of `HtmlMeta::try_find_author`. -/
def htmlMetaTryFindAuthorAux (doc : ScrapedDoc) : List String → Option (List Author)
  | [] => none
  | selector :: rest =>
    let texts := ((doc.selector_texts.find? (fun p => p.1 = selector)).map
      (fun p => p.2)).getD []
    let authors := texts.filterMap cleanAuthorText
    if authors.isEmpty then htmlMetaTryFindAuthorAux doc rest else some authors

/-- The `HtmlMeta::try_find_author` method. -/
def htmlMetaTryFindAuthor (doc : ScrapedDoc) : Option (List Author) :=
  htmlMetaTryFindAuthorAux doc authorSelectors

/-- Model of chrono parsing with `%Y-%m-%dT%H:%M:%S` (no timezone), as used
by `html_meta.rs` for ISO 8601 dates without offset. -/
def parseNaiveDateTimeNoTz (s : String) : Option DateTimeUtc :=
  match s.toList.splitOn 'T' with
  | [datePart, timePart] => do
    let nd ← chronoParseYmd (String.mk datePart)
    match (timePart.splitOn ':').map String.mk with
    | [hs, ms, ss] => do
      let hh ← digitsToNat hs.toList
      let mm ← digitsToNat ms.toList
      let sec ← digitsToNat ss.toList
      if hh < 24 ∧ mm < 60 ∧ sec < 61 then
        some ⟨nd.year, nd.month, nd.day, hh, mm, sec⟩
      else none
    | _ => none
  | _ => none

/-- The `attribute_type_to_attribute` function from `html_meta.rs`. -/
def htmlMetaAttributeTypeToAttribute (attribute_type : AttributeType)
    (attribute_value : String) : Option Attribute :=
  match attribute_type with
  | .author => some (.authors [.generic attribute_value])
  | .date =>
    match parse_date attribute_value with
    | some date => some (.date date)
    | none =>
      match parseNaiveDateTimeNoTz attribute_value with
      | some dt => some (.date (.dateTime dt))
      | none => (chronoParseYmd attribute_value).map (fun nd => .date (.yearMonthDay nd))
  | .publisher => some (.publisher attribute_value)
  | .site => some (.site attribute_value)
  | .language => some (.language attribute_value)
  | _ => none

/-- The `HtmlMeta::parse_attribute` implementation from `html_meta.rs`. -/
def htmlMetaParseAttribute (parse_info : ParseInfo) (attribute_type : AttributeType) :
    Option Attribute :=
  let raw_html := parse_info.raw_html
  match attribute_type with
  | .author =>
    match tryFindMetaContent raw_html (htmlMetaKeys .author) with
    | some value => htmlMetaAttributeTypeToAttribute .author value
    | none => (htmlMetaTryFindAuthor raw_html).map .authors
  | .date =>
    match tryFindMetaContent raw_html (htmlMetaKeys .date) with
    | some value => htmlMetaAttributeTypeToAttribute .date value
    | none =>
      match tryFindMicrodataDate raw_html with
      | some datetime => htmlMetaAttributeTypeToAttribute .date datetime
      | none => none
  | _ =>
    (tryFindMetaContent raw_html (htmlMetaKeys attribute_type)).bind
      (htmlMetaAttributeTypeToAttribute attribute_type)

/-- Modelled from the spec: the OpenGraph key table.  `opengraph.rs` is
absent from the url2ref crate sources (only an incompatible historical
snapshot of the crate carries one); the table follows that snapshot. -/
def ogKeys : AttributeType → List String
  | .title => ["title"]
  | .author => ["article:author"]
  | .locale => ["locale"]
  | .site => ["site_name"]
  | .url => ["url"]
  | .date => ["article:published_time", "article:modified_time", "updated_time"]
  | .type => ["type"]
  | _ => []

/-- Modelled from the spec: OpenGraph key lookup — "looks up a fixed
external-key list per `AttributeType` inside the page's `og:*` property map;
first key with a non-empty value wins" (spec §4.2). -/
def ogTryFindAttribute (og : List (String × String)) : List String → Option String
  | [] => none
  | key :: rest =>
    match og.find? (fun p => p.1 = key) with
    | some p => if p.2 ≠ "" then some p.2 else ogTryFindAttribute og rest
    | none => ogTryFindAttribute og rest

/-- Modelled from the spec: conversion of an OpenGraph property value to an
`Attribute`, following the historical snapshot's `attribute_type_to_attribute`
(author values become a single unattributed author in the current model). -/
def ogAttributeTypeToAttribute (attribute_type : AttributeType)
    (attribute_value : String) : Option Attribute :=
  match attribute_type with
  | .title => some (.title attribute_value)
  | .author => some (.authors [.generic attribute_value])
  | .date => (parse_date attribute_value).map .date
  | .locale => some (.locale attribute_value)
  | .language => some (.language attribute_value)
  | .site => some (.site attribute_value)
  | .url => some (.url attribute_value)
  | _ => none

/-- Modelled from the spec: the `OpenGraph::parse_attribute` implementation
(key lookup in the parsed page's Open Graph property map). -/
def openGraphParseAttribute (parse_info : ParseInfo) (attribute_type : AttributeType) :
    Option Attribute :=
  parse_info.html.bind (fun html =>
    (ogTryFindAttribute html.opengraph (ogKeys attribute_type)).bind
      (ogAttributeTypeToAttribute attribute_type))

/-- One iteration body of the `parse` loop in `parser.rs` (lines 125-148):
dispatch to the source parser named by `format`.  Panics inside a parser are
propagated as `.error`. -/
def parseOne (parse_info : ParseInfo) (attribute_type : AttributeType)
    (format : MetadataType) : Except String (Option Attribute) :=
  match format with
  | .openGraph => .ok (openGraphParseAttribute parse_info attribute_type)
  | .schemaOrg => schemaOrgParseAttribute parse_info attribute_type
  | .htmlMeta => .ok (htmlMetaParseAttribute parse_info attribute_type)
  | .doi => doiParseAttribute parse_info attribute_type
  | .zotero =>
    .ok (match parse_info.zotero_result with
         | some r => zoteroParseFromResult r attribute_type
         | none => none)
  | .ai => .ok none

/-- The `parse` function from `parser.rs` (lines 125-148): try each source
in priority order, return the first `Some`. -/
def parse (parse_info : ParseInfo) (attribute_type : AttributeType) :
    List MetadataType → Except String (Option Attribute)
  | [] => .ok none
  | format :: rest => do
    let attr ← parseOne parse_info attribute_type format
    if attr.isSome then .ok attr else parse parse_info attribute_type rest

/-- The `ArchiveOptions` struct from `generator.rs`. -/
structure ArchiveOptions where
  include_archived : Bool
  perform_archival : Bool
deriving DecidableEq

/-- The `WaybackSnapshot` struct from `generator.rs` (the `status` and
`available` fields are never read). -/
structure WaybackSnapshot where
  url : String
  timestamp : String
deriving DecidableEq

/-- A call issued to the Wayback Machine service during the archive step. -/
inductive ArchiveCall where
  | query
  | save
deriving DecidableEq

/-- The external Wayback Machine outcomes for one request: the `.ok()` of
`call_wayback_api(url, &None)` and of `save_to_wayback(url)`. -/
structure ArchiveEnv where
  query : Option WaybackSnapshot
  save : Option WaybackSnapshot
deriving DecidableEq

/-- Model of `parse_wayback_timestamp` (`generator.rs`): chrono parsing with
`%Y%m%d%H%M%S` — fourteen digits making a valid instant. -/
def parseWaybackTimestamp (timestamp : String) : Option DateTimeUtc :=
  let cs := timestamp.toList
  if cs.length = 14 ∧ cs.all Char.isDigit then do
    let y ← digitsToNat (cs.take 4)
    let mo ← digitsToNat ((cs.drop 4).take 2)
    let d ← digitsToNat ((cs.drop 6).take 2)
    let hh ← digitsToNat ((cs.drop 8).take 2)
    let mi ← digitsToNat ((cs.drop 10).take 2)
    let ss ← digitsToNat ((cs.drop 12).take 2)
    if 1 ≤ mo ∧ mo ≤ 12 ∧ 1 ≤ d ∧ d ≤ daysInMonth (Int.ofNat y) mo ∧
        hh < 24 ∧ mi < 60 ∧ ss < 61 then
      some ⟨Int.ofNat y, mo, d, hh, mi, ss⟩
    else none
  else none

/-- The `fetch_archive_info` function from `generator.rs` (lines 551-584),
with the two external Wayback calls supplied by `env` and the calls actually
issued recorded in a trace.  The `.unwrap()` on the timestamp parse is
modelled as `.error`. -/
def fetchArchiveInfo (url : Option Attribute) (options : ArchiveOptions)
    (env : ArchiveEnv) :
    Except String ((Option Attribute × Option Attribute) × List ArchiveCall) :=
  if !options.include_archived then .ok ((none, none), [])
  else
    match url with
    | some (.url _url_str) =>
      let wayback_snapshot := env.query
      let step :=
        match wayback_snapshot with
        | some snapshot => (some snapshot, [ArchiveCall.query])
        | none =>
          if options.perform_archival then (env.save, [ArchiveCall.query, ArchiveCall.save])
          else (none, [ArchiveCall.query])
      match step.1 with
      | some snapshot =>
        match parseWaybackTimestamp snapshot.timestamp with
        | some dt =>
          .ok ((some (.archiveUrl snapshot.url),
                some (.archiveDate (.dateTime dt))), step.2)
        | none => .error "called Option.unwrap on a None value"
      | none => .ok ((none, none), step.2)
    | _ => .ok ((none, none), [])

/-- The `AiExtractedMetadata` struct from `ai_extractor.rs`. -/
structure AiExtractedMetadata where
  title : Option String
  authors : Option (List String)
  date : Option String
  site : Option String
  publisher : Option String
  language : Option String
deriving DecidableEq

/-- The `parse_ai_date` function from `ai_extractor.rs`. -/
def parseAiDate (date_str : String) : Option Date :=
  match chronoParseYmd date_str with
  | some nd => some (.yearMonthDay nd)
  | none =>
    if date_str.utf8ByteSize = 7 then
      match (date_str.toList.splitOn '-').map String.mk with
      | [ys, ms] =>
        match strToInt ys, strToInt ms with
        | some year, some month => some (.yearMonth year month)
        | _, _ =>
          if date_str.utf8ByteSize = 4 then (strToInt date_str).map .year else none
      | _ =>
        if date_str.utf8ByteSize = 4 then (strToInt date_str).map .year else none
    else
      if date_str.utf8ByteSize = 4 then (strToInt date_str).map .year else none

/-- The `get_attribute_from_ai` function from `ai_extractor.rs`. -/
def getAttributeFromAi (metadata : AiExtractedMetadata)
    (attribute_type : AttributeType) : Option Attribute :=
  match attribute_type with
  | .title => metadata.title.map .title
  | .author =>
    metadata.authors.bind (fun authors =>
      if authors.isEmpty then none
      else some (.authors (authors.map .generic)))
  | .date => metadata.date.bind (fun date_str => (parseAiDate date_str).map .date)
  | .site => metadata.site.map .site
  | .publisher => metadata.publisher.map .publisher
  | .language => metadata.language.map .language
  | _ => none

/-- The seven per-field locals of `create_reference` (`generator.rs` lines
262-269) that the AI-fallback block may update. -/
structure CollectedFields where
  title : Option Attribute
  author : Option Attribute
  date : Option Attribute
  language : Option Attribute
  site : Option Attribute
  publisher : Option Attribute
deriving DecidableEq

/-- The AI-fallback block of `create_reference` (`generator.rs` lines
281-342): when enabled and at least one field is missing and a URL is
available, a single extraction call fills exactly the fields that are still
`None`.  The external extraction outcome is the `ai_result` argument. -/
def aiOverlay (enabled : Bool) (fields : CollectedFields) (url : Option String)
    (ai_result : Except Unit AiExtractedMetadata) : CollectedFields :=
  if enabled then
    let missing_fields := fields.title.isNone || fields.author.isNone ||
      fields.date.isNone || fields.site.isNone || fields.publisher.isNone ||
      fields.language.isNone
    if missing_fields then
      match url with
      | some _ =>
        match ai_result with
        | .ok ai_metadata =>
          { title := if fields.title.isNone then getAttributeFromAi ai_metadata .title
              else fields.title
            author := if fields.author.isNone then getAttributeFromAi ai_metadata .author
              else fields.author
            date := if fields.date.isNone then getAttributeFromAi ai_metadata .date
              else fields.date
            language := if fields.language.isNone then getAttributeFromAi ai_metadata .language
              else fields.language
            site := if fields.site.isNone then getAttributeFromAi ai_metadata .site
              else fields.site
            publisher := if fields.publisher.isNone then getAttributeFromAi ai_metadata .publisher
              else fields.publisher }
        | .error _ => fields
      | none => fields
    else fields
  else fields

/-- The `Reference` enum from `reference.rs`. -/
inductive Reference where
  | newsArticle (title translated_title author date language site url publisher
      archive_url archive_date : Option Attribute)
  | scholarlyArticle (title translated_title author date language url journal publisher
      archive_url archive_date : Option Attribute)
  | genericReference (title translated_title author date language site url
      archive_url archive_date : Option Attribute)
deriving DecidableEq

/-- The `translate_title` function from `generator.rs` (lines 369-401),
with the external provider call's outcome as the `external` argument; any
failure (non-title input, missing target language, provider error) is an
error, which `create_reference` downgrades with `.ok()`. -/
def translateTitle (title : Option Attribute) (target : Option String)
    (external : Except Unit String) : Except Unit Attribute :=
  match title with
  | some (.title _content) =>
    match target with
    | none => .error ()
    | some tgt =>
      match external with
      | .ok text => .ok (.translatedTitle ⟨text, tgt⟩)
      | .error e => .error e
  | _ => .error ()

/-- The body of `create_reference` (`generator.rs` lines 258-365) after the
attribute collection has been resolved into `fields` and `url`: AI fallback
overlay, optional title translation, archive lookup, and packaging into a
`Reference::NewsArticle`. -/
def createReferenceCore (fields : CollectedFields) (url : Option Attribute)
    (url_str : Option String) (ai_enabled : Bool)
    (ai_result : Except Unit AiExtractedMetadata) (target : Option String)
    (translate_external : Except Unit String) (archive_options : ArchiveOptions)
    (archive_env : ArchiveEnv) : Except String Reference :=
  let f := aiOverlay ai_enabled fields url_str ai_result
  let translated_title := (translateTitle f.title target translate_external).toOption
  match fetchArchiveInfo url archive_options archive_env with
  | .error e => .error e
  | .ok archive =>
    .ok (.newsArticle f.title translated_title f.author f.date f.language f.site url
          f.publisher archive.1.1 archive.1.2)

/-- An empty scraped document (no meta tags, no time elements, no selector
hits). -/
def emptyScrapedDoc : ScrapedDoc := { metas := [], times := [], selector_texts := [] }

/-- The spec's priority scenario page: OpenGraph provides `title="X"`,
Schema.org provides `title="Y"` (as `headline`). -/
def pinfoTitleXY : ParseInfo :=
  { url := none
    raw_html := emptyScrapedDoc
    html := some { opengraph := [("title", "X")],
                   schema_org := [.obj [("headline", .str "Y")]] }
    bibliography := none
    zotero_result := none }

/-- C1: the priority resolver returns the first source (in list order) whose
parse yields `Some`, whatever the later-listed sources would return; with
priority `[OpenGraph, SchemaOrg]` the scenario page resolves the title to
OpenGraph's "X", with `[SchemaOrg, OpenGraph]` to Schema.org's "Y". -/
theorem priority_first_match_wins
    (parse_info : ParseInfo) (t : AttributeType) (pre : List MetadataType)
    (src : MetadataType) (rest : List MetadataType) (v : Attribute)
    (hpre : ∀ s ∈ pre, parseOne parse_info t s = .ok none)
    (hsrc : parseOne parse_info t src = .ok (some v)) :
    parse parse_info t (pre ++ src :: rest) = .ok (some v) ∧
    parse pinfoTitleXY .title [.openGraph, .schemaOrg] = .ok (some (.title "X")) ∧
    parse pinfoTitleXY .title [.schemaOrg, .openGraph] = .ok (some (.title "Y")) := by
  refine ⟨?_, rfl, rfl⟩
  induction pre with
  | nil =>
    simp only [List.nil_append, parse, hsrc]
    rfl
  | cons p ps ih =>
    have hp : parseOne parse_info t p = .ok none := hpre p (by simp)
    have ih' := ih (fun s hs => hpre s (by simp [hs]))
    simp only [List.cons_append, parse, hp]
    show parse parse_info t (ps ++ src :: rest) = .ok (some v)
    exact ih'

/-- Witness for `priority_first_match_wins`: a Zotero-less source first in
the list yields nothing, then OpenGraph wins on the scenario page. -/
theorem priority_first_match_wins_witness :
    (∀ s ∈ [MetadataType.zotero], parseOne pinfoTitleXY .title s = .ok none) ∧
    parseOne pinfoTitleXY .title .openGraph = .ok (some (.title "X")) ∧
    parse pinfoTitleXY .title
      ([MetadataType.zotero] ++ MetadataType.openGraph :: [MetadataType.schemaOrg]) =
      .ok (some (.title "X")) := by
  have hpre : ∀ s ∈ [MetadataType.zotero], parseOne pinfoTitleXY .title s = .ok none := by
    intro s hs
    simp only [List.mem_singleton] at hs
    subst hs
    rfl
  exact ⟨hpre, rfl,
    (priority_first_match_wins pinfoTitleXY .title [.zotero] .openGraph [.schemaOrg]
      (.title "X") hpre rfl).1⟩

/-- A page whose first JSON-LD object holds an author array containing a
plain string entry. -/
def pinfoAuthorPanic : ParseInfo :=
  { url := none
    raw_html := emptyScrapedDoc
    html := some { opengraph := [],
                   schema_org := [.obj [("author", .arr [.str "Jane Smith"])]] }
    bibliography := none
    zotero_result := none }

/-- C10: there is a `ParseInfo` on which Schema.org author extraction
panics — an author array containing a non-object entry reaches `todo!()`
("not yet implemented") instead of returning `None`. -/
theorem schema_org_author_panic :
    ∃ parse_info : ParseInfo,
      schemaOrgParseAttribute parse_info .author = .error "not yet implemented" :=
  ⟨pinfoAuthorPanic, rfl⟩

/-- C3: a Citoid/Zotero result whose title is absent, empty, or equal to
"not found", "404" or "error" is invalid: `is_valid` is false, the
`ParseInfo` keeps no Zotero result for it, and Zotero parsing on a
`ParseInfo` without a stored result yields `None` for every attribute
type. -/
theorem zotero_invalid_title_rejected (r : ZoteroResult)
    (h : r.title = none ∨ r.title = some "" ∨ r.title = some "not found" ∨
      r.title = some "404" ∨ r.title = some "error") :
    r.isValid = false ∧
    (∀ (use_zotero : Bool) (url : String),
      zoteroResultDecision use_zotero url (.ok r) = none) ∧
    (∀ (parse_info : ParseInfo) (t : AttributeType),
      parse_info.zotero_result = none → parseOne parse_info t .zotero = .ok none) := by
  have hv : r.isValid = false := by
    unfold ZoteroResult.isValid
    rcases h with h | h | h | h | h <;> rw [h] <;> decide
  refine ⟨hv, ?_, ?_⟩
  · intro use_zotero url
    simp [zoteroResultDecision, hv]
  · intro parse_info t hp
    simp [parseOne, hp]

/-- A Citoid response with title "404" and nothing else. -/
def zotero404 : ZoteroResult :=
  { item_type := none, title := some "404", creators := none, date := none
    publication_title := none, book_title := none, website_title := none
    doi := none, url := none, language := none, publisher := none, place := none
    volume := none, issue := none, pages := none, isbn := none, issn := none
    abstract_note := none, extra := none, university := none, thesis_type := none }

/-- Witness for `zotero_invalid_title_rejected` at the `{title: "404"}`
response. -/
theorem zotero_invalid_title_rejected_witness :
    zotero404.isValid = false ∧
    zoteroResultDecision true "https://example.com/a" (.ok zotero404) = none :=
  ⟨(zotero_invalid_title_rejected zotero404
      (Or.inr (Or.inr (Or.inr (Or.inl rfl))))).1,
   (zotero_invalid_title_rejected zotero404
      (Or.inr (Or.inr (Or.inr (Or.inl rfl))))).2.1 true "https://example.com/a"⟩

/-- C6: a BibTeX date carrying the approximate or the uncertain flag is
treated as absent — `date_to_attribute` returns `None`, and so does the DOI
parser's date extraction for an entry holding such a date. -/
theorem doi_flagged_date_absent (d : BibDate)
    (h : d.approximate = true ∨ d.uncertain = true) :
    dateToAttribute (.typed d) = none ∧
    (∀ entry : BibEntry, entry.date = some (.typed d) →
      doiAttributeTypeToAttribute entry .date = none) := by
  have hd : dateToAttribute (.typed d) = none := by
    unfold dateToAttribute
    rcases h with h | h <;> simp [h]
  exact ⟨hd, fun entry he => by simp [doiAttributeTypeToAttribute, he, hd]⟩

/-- A BibTeX date with the approximate flag set. -/
def approxBibDate : BibDate :=
  { approximate := true, uncertain := false, value := .at ⟨2020, some 5, some 1⟩ }

/-- Witness for `doi_flagged_date_absent` at a concrete approximate date. -/
theorem doi_flagged_date_absent_witness :
    approxBibDate.approximate = true ∧ dateToAttribute (.typed approxBibDate) = none :=
  ⟨rfl, (doi_flagged_date_absent approxBibDate (Or.inl rfl)).1⟩

/-- C7: when the archive query finds no snapshot and archival creation is
disabled, the archive step returns `None` for both the archive URL and the
archive date, and the issued-call trace holds only the query — no save
request. -/
theorem archive_no_snapshot_no_save (url_str : String) (env : ArchiveEnv)
    (hq : env.query = none) :
    fetchArchiveInfo (some (.url url_str)) ⟨true, false⟩ env =
      .ok ((none, none), [ArchiveCall.query]) ∧
    ArchiveCall.save ∉ [ArchiveCall.query] := by
  refine ⟨?_, by decide⟩
  simp [fetchArchiveInfo, hq]

/-- A Wayback environment with no existing snapshot in which a save request
would succeed — showing the save result is never consulted. -/
def saveOnlyEnv : ArchiveEnv :=
  { query := none
    save := some { url := "http://web.archive.org/web/20200101000000/https://example.com"
                   timestamp := "20200101000000" } }

/-- Witness for `archive_no_snapshot_no_save` at a concrete URL and
environment. -/
theorem archive_no_snapshot_no_save_witness :
    saveOnlyEnv.query = none ∧
    fetchArchiveInfo (some (.url "https://example.com")) ⟨true, false⟩ saveOnlyEnv =
      .ok ((none, none), [ArchiveCall.query]) :=
  ⟨rfl, (archive_no_snapshot_no_save "https://example.com" saveOnlyEnv rfl).1⟩

/-- C2: with the AI fallback enabled, every field already resolved to `Some`
by the deterministic sources keeps its value through the AI overlay, and the
produced `Reference` carries exactly the overlay's field values. -/
theorem ai_fallback_no_overwrite
    (fields : CollectedFields) (url_str : Option String)
    (ai_result : Except Unit AiExtractedMetadata) :
    (∀ v, fields.title = some v → (aiOverlay true fields url_str ai_result).title = some v) ∧
    (∀ v, fields.author = some v → (aiOverlay true fields url_str ai_result).author = some v) ∧
    (∀ v, fields.date = some v → (aiOverlay true fields url_str ai_result).date = some v) ∧
    (∀ v, fields.site = some v → (aiOverlay true fields url_str ai_result).site = some v) ∧
    (∀ v, fields.publisher = some v →
      (aiOverlay true fields url_str ai_result).publisher = some v) ∧
    (∀ v, fields.language = some v →
      (aiOverlay true fields url_str ai_result).language = some v) ∧
    (∀ (url : Option Attribute) (target : Option String) (ext : Except Unit String)
        (aopts : ArchiveOptions) (aenv : ArchiveEnv) (r : Reference),
      createReferenceCore fields url url_str true ai_result target ext aopts aenv = .ok r →
      ∃ translated archive_url archive_date,
        r = .newsArticle (aiOverlay true fields url_str ai_result).title translated
          (aiOverlay true fields url_str ai_result).author
          (aiOverlay true fields url_str ai_result).date
          (aiOverlay true fields url_str ai_result).language
          (aiOverlay true fields url_str ai_result).site url
          (aiOverlay true fields url_str ai_result).publisher
          archive_url archive_date) := by
  refine ⟨?_, ?_, ?_, ?_, ?_, ?_, ?_⟩
  case _ => intro v hv; rcases url_str with _ | u <;> rcases ai_result with e | md <;>
    simp [aiOverlay, hv] <;> split <;> simp [hv]
  case _ => intro v hv; rcases url_str with _ | u <;> rcases ai_result with e | md <;>
    simp [aiOverlay, hv] <;> split <;> simp [hv]
  case _ => intro v hv; rcases url_str with _ | u <;> rcases ai_result with e | md <;>
    simp [aiOverlay, hv] <;> split <;> simp [hv]
  case _ => intro v hv; rcases url_str with _ | u <;> rcases ai_result with e | md <;>
    simp [aiOverlay, hv] <;> split <;> simp [hv]
  case _ => intro v hv; rcases url_str with _ | u <;> rcases ai_result with e | md <;>
    simp [aiOverlay, hv] <;> split <;> simp [hv]
  case _ => intro v hv; rcases url_str with _ | u <;> rcases ai_result with e | md <;>
    simp [aiOverlay, hv] <;> split <;> simp [hv]
  case _ =>
    intro url target ext aopts aenv r hr
    unfold createReferenceCore at hr
    cases harch : fetchArchiveInfo url aopts aenv with
    | error e => rw [harch] at hr; simp at hr
    | ok p =>
      rw [harch] at hr
      simp only [Except.ok.injEq] at hr
      exact ⟨_, p.1.1, p.1.2, hr.symm⟩

/-- Resolved fields in which only the title is present. -/
def fieldsX : CollectedFields :=
  { title := some (.title "X"), author := none, date := none, language := none
    site := none, publisher := none }

/-- An AI extraction result offering a different title "Y". -/
def aiMdY : AiExtractedMetadata :=
  { title := some "Y", authors := none, date := none, site := none
    publisher := none, language := none }

/-- Witness for `ai_fallback_no_overwrite`: the AI-offered title "Y" does not
displace the already-resolved title "X" even though other fields are missing
and the extraction call runs. -/
theorem ai_fallback_no_overwrite_witness :
    fieldsX.title = some (.title "X") ∧
    (aiOverlay true fieldsX (some "https://example.com") (.ok aiMdY)).title =
      some (.title "X") :=
  ⟨rfl, (ai_fallback_no_overwrite fieldsX (some "https://example.com")
      (.ok aiMdY)).1 (.title "X") rfl⟩
